import Mathlib

/-!
Verification of the finstats return/risk statistics engine.

The repository contains two generations of the same statistics code:
free functions in `src/stats_funcs.py` (and the near-identical class in
`src/funcs.py`), and the `fin_stats` class in `src/src/core.py` used by
`sbs`/`mbs` in `src/__init__.py`.  Balance data is embedded as exact
rationals (`ℚ`); the transcendental log/exp based metrics are embedded
over `ℝ` later in this file.  A pandas `Series` of floats with NaN holes
is embedded as `List (Option ℚ)`, `none` standing for NaN; pandas
reductions skip NaN, which the `o*` helpers below reproduce.
-/

/-- `balance.pct_change(k, fill_method=None)` (pandas): entry `i` is
`balance[i]/balance[i-k] - 1` for `i ≥ k` and NaN (`none`) for the first
`k` positions. -/
def pct_change (k : ℕ) (b : List ℚ) : List (Option ℚ) :=
  (List.range b.length).map fun i =>
    if k ≤ i then some (b.getD i 0 / b.getD (i - k) 0 - 1) else none

/-- Helper for `cummax`: running maximum of the tail given the maximum
`m` of the elements already seen. -/
def cummaxAux (m : ℚ) : List ℚ → List ℚ
  | [] => []
  | x :: xs => max m x :: cummaxAux (max m x) xs

/-- `balance.cummax()` (pandas): entry `i` is the maximum of the first
`i+1` balance values. -/
def cummax : List ℚ → List ℚ
  | [] => []
  | x :: xs => x :: cummaxAux x xs

/-- `fin_stats.drawdown` (src/src/core.py lines 185-204): the vectorized
drawdown curve `(balance - cummax) / cummax`. -/
def drawdown_list (b : List ℚ) : List ℚ :=
  List.zipWith (fun x m => (x - m) / m) b (cummax b)

/-- `fin_stats.max_dd` (src/src/core.py lines 206-223): minimum of the
drawdown curve; `none` models the logged-and-swallowed failure on an
empty series (pandas `min` of an empty series is NaN). -/
def max_dd (b : List ℚ) : Option ℚ :=
  (drawdown_list b).min?

/-- The loop body of `calc_max_dd` (src/stats_funcs.py lines 98-114):
single pass holding the running maximum `rm` and the most negative
drawdown `mdd` seen so far. -/
def calc_max_dd_loop (rm mdd : ℚ) : List ℚ → ℚ
  | [] => mdd
  | x :: xs =>
    let rm' := if x > rm then x else rm
    let dd := (x - rm') / rm'
    let mdd' := if dd < mdd then dd else mdd
    calc_max_dd_loop rm' mdd' xs

/-- `calc_max_dd` (src/stats_funcs.py lines 98-114): running-peak loop
implementation of the maximum drawdown.  `running_max` starts at
`balance[0]` and the loop runs over the whole series; `none` models the
logged failure when `balance[0]` raises on an empty series. -/
def calc_max_dd : List ℚ → Option ℚ
  | [] => none
  | b0 :: rest => some (calc_max_dd_loop b0 0 (b0 :: rest))

/-- Helper for `idxmin`: first index attaining the minimum, scanning the
tail with the best (index, value) pair seen so far. -/
def idxminAux : ℕ → ℕ → ℚ → List ℚ → ℕ
  | _, bi, _, [] => bi
  | i, bi, bv, x :: xs =>
    if x < bv then idxminAux (i + 1) i x xs else idxminAux (i + 1) bi bv xs

/-- `series.idxmin()` (pandas): position of the first occurrence of the
minimum (0 on an empty list; callers guard non-emptiness). -/
def idxmin : List ℚ → ℕ
  | [] => 0
  | x :: xs => idxminAux 1 0 x xs

/-- Helper for `idxmax`: first index attaining the maximum. -/
def idxmaxAux : ℕ → ℕ → ℚ → List ℚ → ℕ
  | _, bi, _, [] => bi
  | i, bi, bv, x :: xs =>
    if x > bv then idxmaxAux (i + 1) i x xs else idxmaxAux (i + 1) bi bv xs

/-- `series.idxmax()` (pandas): position of the first occurrence of the
maximum. -/
def idxmax : List ℚ → ℕ
  | [] => 0
  | x :: xs => idxmaxAux 1 0 x xs

/-- `(balance[t:] >= peakVal).idxmax()` (pandas): the first position
`≥ t` whose balance is `≥ peakVal`; if the boolean mask is all `False`,
`idxmax` returns the first label of the slice, i.e. `t` itself. -/
def find_from (peakVal : ℚ) (t : ℕ) (b : List ℚ) : ℕ :=
  match (b.drop t).findIdx? (fun x => decide (peakVal ≤ x)) with
  | some j => t + j
  | none => t

/-- Result of `fin_stats.recovery` (src/src/core.py lines 243-274): a
number of days, or the string `"Not Recovered"`. -/
inductive RecoveryResult where
  | recovered (days : ℕ)
  | notRecovered
deriving DecidableEq, Repr

/-- `fin_stats.recovery` (src/src/core.py lines 243-274).  The series'
datetime index is modelled as consecutive daily positions `0, 1, 2, …`,
so the final `(recovery_date - max_drawdown_end_date).days` is the
difference of list positions.  The trough is `drawdowns.idxmin()`, the
peak is `cumulative_max[:trough].idxmax()` (label slicing is inclusive),
and the recovery date is the first position at or after the trough whose
balance reaches `balance[peak]`.  `none` models the logged failure on an
empty series (`idxmin` raises). -/
def recovery (b : List ℚ) : Option RecoveryResult :=
  match b with
  | [] => none
  | _ :: _ =>
    let dds := drawdown_list b
    let t := idxmin dds
    let s := idxmax ((cummax b).take (t + 1))
    let peakVal := b.getD s 0
    let r := find_from peakVal t b
    if b.getD r 0 < peakVal then some .notRecovered
    else some (.recovered (r - t))

/-- First loop of `calc_recovery` (src/stats_funcs.py lines 146-158):
returns the final `(max_drawdown, max_drawdown_peak)` pair, where the
drawdown is measured positively as `(peak - x)/peak`. -/
def calc_recovery_findmax (peak mdd mpk : ℚ) : List ℚ → ℚ × ℚ
  | [] => (mdd, mpk)
  | x :: xs =>
    let peak' := if x > peak then x else peak
    let cur := (peak' - x) / peak'
    if cur > mdd then calc_recovery_findmax peak' cur peak' xs
    else calc_recovery_findmax peak' mdd mpk xs

/-- Second loop of `calc_recovery` (src/stats_funcs.py lines 160-176):
arm on the first occurrence of the peak value, then count elements until
one reaches the peak again. -/
def calc_recovery_scan (peakV : ℚ) : Bool → ℕ → List ℚ → Option ℕ
  | _, _, [] => none
  | started, steps, x :: xs =>
    if x = peakV ∧ started = false then calc_recovery_scan peakV true steps xs
    else if started = true ∧ peakV ≤ x then some steps
    else if started = true then calc_recovery_scan peakV true (steps + 1) xs
    else calc_recovery_scan peakV false steps xs

/-- `calc_recovery` (src/stats_funcs.py lines 134-179): identify the
maximum drawdown and its peak, then — only when the maximum drawdown is
strictly positive — scan again for the recovery step count.  `none` is
the Python `None`, returned both when the series never recovers and when
the maximum drawdown is zero. -/
def calc_recovery (b : List ℚ) : Option ℕ :=
  match b with
  | [] => none
  | b0 :: _ =>
    let p := calc_recovery_findmax b0 0 0 b
    if 0 < p.1 then calc_recovery_scan p.2 false 0 b else none

/-- Pandas truth value of `x < 0` for a possibly-NaN entry: NaN
comparisons are `False`. -/
def oIsNeg : Option ℚ → Bool
  | some x => decide (x < 0)
  | none => false

/-- Loop of `fin_stats.losing_streak` (src/src/core.py lines 225-241,
identical to `calc_losing_streak`, src/stats_funcs.py lines 116-132):
current streak counter, reset on any non-negative (or NaN) return, with
the maximum streak tracked. -/
def losing_streak_loop (cur best : ℕ) : List (Option ℚ) → ℕ
  | [] => best
  | x :: xs =>
    if oIsNeg x then losing_streak_loop (cur + 1) (max best (cur + 1)) xs
    else losing_streak_loop 0 best xs

/-- `fin_stats.losing_streak` / `calc_losing_streak`, as a function of
the simple-return series. -/
def losing_streak (r : List (Option ℚ)) : ℕ :=
  losing_streak_loop 0 0 r

/-- Length of the run of strictly negative returns at the head of the
list (specification-side notion for the losing-streak claim). -/
def negRunHead : List (Option ℚ) → ℕ
  | [] => 0
  | x :: xs => if oIsNeg x then negRunHead xs + 1 else 0

/-- Length of the longest run of consecutive strictly negative returns:
the maximum over all suffixes of the negative run at their head
(specification-side notion for the losing-streak claim). -/
def maxNegRun : List (Option ℚ) → ℕ
  | [] => 0
  | x :: xs => max (negRunHead (x :: xs)) (maxNegRun xs)

/-- Pandas truth value of `x >= 0` for a possibly-NaN entry. -/
def oIsNonneg : Option ℚ → Bool
  | some x => decide (0 ≤ x)
  | none => false

/-- Pandas truth value of `x > 0` for a possibly-NaN entry. -/
def oIsPos : Option ℚ → Bool
  | some x => decide (0 < x)
  | none => false

/-- `fin_stats.positive_returns_pct` (src/src/core.py lines 152-158):
`returns[returns >= 0].count() / returns.count()`, as a function of the
simple-return series. -/
def positive_returns_pct (r : List (Option ℚ)) : ℚ :=
  (r.countP oIsNonneg : ℚ) / (r.countP (fun o => o.isSome) : ℚ)

/-- `calc_pos_returns_pct` (src/stats_funcs.py lines 40-47):
`bal_pct[bal_pct > 0].count() / bal_pct.count()` on the one-step returns
of the balance — note the strict `> 0`, unlike the core engine.  The
method `positive_returns_pct` of src/funcs.py lines 75-81 uses the same
strict comparison on its return series. -/
def calc_pos_returns_pct (b : List ℚ) : ℚ :=
  let r := pct_change 1 b
  (r.countP oIsPos : ℚ) / (r.countP (fun o => o.isSome) : ℚ)

/-! ### NaN-skipping float reductions (pandas semantics), over `ℝ` -/

/-- The non-NaN values of a float series (pandas reductions skip NaN). -/
def oVals (l : List (Option ℝ)) : List ℝ := l.filterMap id

/-- `Series.mean()` (pandas): NaN-skipping arithmetic mean.  On an empty
(or all-NaN) series pandas yields NaN; here the division by zero yields
`0`, and every use below is guarded by the callers exactly as the NaN
would be. -/
noncomputable def omean (l : List (Option ℝ)) : ℝ :=
  (oVals l).sum / ((oVals l).length : ℝ)

/-- `Series.var()` (pandas): NaN-skipping sample variance with
`ddof = 1`, i.e. division by `n - 1`.  For `n ≤ 1` pandas yields NaN;
here the quotient degenerates to `0`, which lands in the same branch of
every guarded use below as the NaN would (`NaN > 0` is `False`). -/
noncomputable def ovar (l : List (Option ℝ)) : ℝ :=
  ((oVals l).map (fun x => (x - omean l) ^ 2)).sum / (((oVals l).length : ℝ) - 1)

/-- `Series.std()` (pandas): sample standard deviation, `ddof = 1`. -/
noncomputable def ostd (l : List (Option ℝ)) : ℝ := Real.sqrt (ovar l)

/-- Cast an exact rational series to a float series. -/
def oCastR (l : List (Option ℚ)) : List (Option ℝ) :=
  l.map (Option.map fun x : ℚ => (x : ℝ))

/-- `np.log(1 + returns)`: the log-return series; NaN positions stay
NaN. -/
noncomputable def oLog1p (l : List (Option ℚ)) : List (Option ℝ) :=
  l.map (Option.map fun x : ℚ => Real.log (1 + (x : ℝ)))

/-- Elementwise difference of two aligned pandas series: NaN wherever
either operand is NaN. -/
def osubQ : Option ℚ → Option ℚ → Option ℚ
  | some a, some b => some (a - b)
  | _, _ => none

/-- Elementwise difference of two aligned float series. -/
def osubR : Option ℝ → Option ℝ → Option ℝ
  | some a, some b => some (a - b)
  | _, _ => none

/-! ### The `fin_stats` engine (src/src/core.py) -/

/-- State of a successfully constructed `fin_stats` object
(src/src/core.py lines 20-33): the per-period risk-free rate, the
resolved step count `stats_freq`, and the balance series (benchmark
balance `[]` when absent).  The return series are derived below exactly
as `__init__` derives them. -/
structure fin_stats where
  rf : ℝ
  stats_freq : ℕ
  balance : List ℚ
  bm_balance : List ℚ

/-- `self.returns = balance.pct_change(stats_freq, fill_method=None)`
(src/src/core.py line 27). -/
def fin_stats.returns (E : fin_stats) : List (Option ℚ) :=
  pct_change E.stats_freq E.balance

/-- `self.log_returns = np.log(1 + self.returns)` (src/src/core.py line
28). -/
noncomputable def fin_stats.log_returns (E : fin_stats) : List (Option ℝ) :=
  oLog1p (fin_stats.returns E)

/-- `self.bm_returns` (src/src/core.py line 32). -/
def fin_stats.bm_returns (E : fin_stats) : List (Option ℚ) :=
  pct_change E.stats_freq E.bm_balance

/-- `self.bm_log_returns` (src/src/core.py line 33). -/
noncomputable def fin_stats.bm_log_returns (E : fin_stats) : List (Option ℝ) :=
  oLog1p (fin_stats.bm_returns E)

/-- `fin_stats.mean_returns` (src/src/core.py lines 38-48): geometric
mean `exp(mean(log_returns)) - 1`, arithmetic mean `returns.mean()`. -/
noncomputable def fin_stats.mean_returns (E : fin_stats) (geometric : Bool) : ℝ :=
  if geometric then Real.exp (omean (fin_stats.log_returns E)) - 1
  else omean (oCastR (fin_stats.returns E))

/-- `fin_stats.min_return` (src/src/core.py lines 177-183):
`self.returns.min()`, NaN (`none`) on an empty/all-NaN return series. -/
def fin_stats.min_return (E : fin_stats) : Option ℚ :=
  ((fin_stats.returns E).filterMap id).min?

/-- `fin_stats.calmar_ratio` (src/src/core.py lines 110-131, source
method name `calmar_ratio`): when `min_return < 0`, the absolute value
of `(mean - rf) / min_return` (both branches recompute the same mean for
their mode); otherwise `np.nan` (`none`).  A NaN `min_return` falls into
the `else` branch because `NaN < 0` is `False`. -/
noncomputable def calmar_ratio_fn (E : fin_stats) (geometric : Bool) : Option ℝ :=
  match fin_stats.min_return E with
  | none => none
  | some m =>
    if m < 0 then some |(fin_stats.mean_returns E geometric - E.rf) / (m : ℝ)|
    else none

/-- The one-line Calmar computation of `sbs.get_stats`
(src/__init__.py line 90): `excess_return / abs(max_loss)` with no
zero-loss guard. -/
noncomputable def sbs_calmar (mean rf max_loss : ℝ) : ℝ :=
  (mean - rf) / |max_loss|

/-- `outperf_bm = self.returns - self.bm_returns` inside
`fin_stats.info_ratio` (src/src/core.py line 284). -/
def fin_stats.ret_diffs (E : fin_stats) : List (Option ℚ) :=
  List.zipWith osubQ (fin_stats.returns E) (fin_stats.bm_returns E)

/-- `outperf_bm = self.log_returns - self.bm_log_returns` inside
`fin_stats.info_ratio` (src/src/core.py line 279). -/
noncomputable def fin_stats.log_ret_diffs (E : fin_stats) : List (Option ℝ) :=
  List.zipWith osubR (fin_stats.log_returns E) (fin_stats.bm_log_returns E)

/-- `fin_stats.info_ratio` (src/src/core.py lines 276-296, source method
name `info_ratio`; identical to `calc_info_ratio`, src/stats_funcs.py
lines 181-204).  Default mode works on log-return differences and
back-transforms mean and std through `exp(·) - 1`; the arithmetic mode
divides the plain mean by the plain std.  In both modes the quotient is
returned only under the guard `outperf_std > 0`; otherwise the result is
`np.nan` (`none`). -/
noncomputable def info_ratio_fn (E : fin_stats) (log_returns : Bool) : Option ℝ :=
  if log_returns then
    let m := Real.exp (omean (fin_stats.log_ret_diffs E)) - 1
    let s := Real.exp (ostd (fin_stats.log_ret_diffs E)) - 1
    if 0 < s then some (m / s) else none
  else
    let m := omean (oCastR (fin_stats.ret_diffs E))
    let s := ostd (oCastR (fin_stats.ret_diffs E))
    if 0 < s then some (m / s) else none

/-! ### Frequency checking and engine construction (src/src/utils.py,
src/src/core.py `__init__`) -/

/-- A raw balance series as passed to `fin_stats`: its values and the
native frequency of its datetime index.  `freqTag` abstracts the pandas
index inspection done by `get_data_frequency` (src/src/utils.py lines
58-76): `some f` when the index has or infers frequency string `f`,
`none` when no frequency can be inferred. -/
structure BalSeries where
  data : List ℚ
  freqTag : Option String

/-- `get_data_frequency` (src/src/utils.py lines 58-76): the frequency
string of the series index, raising when it cannot be inferred. -/
def get_data_frequency (s : BalSeries) : Except String String :=
  match s.freqTag with
  | some f => .ok f
  | none => .error "Unable to infer the Series's index frequency. Please set a frequency."

/-- `check_bal_freq` (src/src/utils.py lines 78-88): reads both
frequencies, raises `ValueError` when they differ, and otherwise returns
the (common) frequency. -/
def check_bal_freq (balance bm_balance : BalSeries) : Except String String := do
  let f1 ← get_data_frequency balance
  let f2 ← get_data_frequency bm_balance
  if f2 = f1 then pure f2
  else .error "Balance and Benchmark balance have a different balance frequency"

/-- The `bal_freq_standarizer` lookup table (src/src/utils.py lines
6-11), keyed by (native balance frequency, requested stats frequency);
`none` models a `KeyError`. -/
def bal_freq_standarizer (bal_freq stats_freq : String) : Option ℕ :=
  match bal_freq, stats_freq with
  | "B", "D" => some 1
  | "B", "M" => some 21
  | "B", "2M" => some 42
  | "B", "3M" => some 63
  | "B", "4M" => some 84
  | "B", "Y" => some 252
  | "D", "D" => some 1
  | "D", "M" => some 30
  | "D", "2M" => some 60
  | "D", "3M" => some 90
  | "D", "4M" => some 120
  | "D", "Y" => some 360
  | "M", "M" => some 1
  | "M", "2M" => some 2
  | "M", "3M" => some 3
  | "M", "4M" => some 4
  | "M", "Y" => some 12
  | "W", "M" => some 4
  | "W", "2M" => some 8
  | "W", "3M" => some 12
  | "W", "4M" => some 16
  | "W", "Y" => some 52
  | _, _ => none

/-- `get_stats_freq` (src/src/utils.py lines 90-96): `check_bal_freq`
runs outside the `try`, so its `ValueError` propagates; a missing table
entry is caught, logged, and turned into a `None` return value. -/
def get_stats_freq (balance bm_balance : BalSeries) (freq : String) :
    Except String (Option ℕ) := do
  let bf ← check_bal_freq balance bm_balance
  pure (bal_freq_standarizer bf freq)

/-- The body of `fin_stats.__init__` (src/src/core.py lines 20-33)
before the enclosing `try/except`: resolve the stats frequency first,
then build the return-bearing engine state.  A `None` stats frequency
makes the subsequent `pct_change(None)` raise, and a frequency mismatch
aborts before any return is computed. -/
def fin_stats_body (balance bm_balance : BalSeries) (freq : String) (rf : ℝ) :
    Except String fin_stats := do
  let sf ← get_stats_freq balance bm_balance freq
  match sf with
  | none => .error "pct_change periods must be an integer, got None"
  | some k =>
    pure { rf := rf, stats_freq := k, balance := balance.data, bm_balance := bm_balance.data }

/-- What the caller of `fin_stats(...)` observes. -/
inductive InitOutcome where
  | engine (E : fin_stats)
  | swallowed

/-- `fin_stats.__init__` (src/src/core.py lines 20-36) as the caller
sees it: the entire body is wrapped in `try/except Exception`, which
logs and swallows every failure, so construction always returns — either
a fully initialized engine or an attribute-less object (`swallowed`). -/
def fin_stats_init (balance bm_balance : BalSeries) (freq : String) (rf : ℝ) :
    InitOutcome :=
  match fin_stats_body balance bm_balance freq rf with
  | .ok E => .engine E
  | .error _ => .swallowed

/-- Balance series with constant per-native-period growth rate `r`:
`balance[i] = b0 * (1 + r)^i`. -/
def geomBalance (b0 r : ℚ) (n : ℕ) : List ℚ :=
  (List.range n).map fun i => b0 * (1 + r) ^ i

/-! ### Helper lemmas -/

lemma ite_gt_max (m x : ℚ) : (if x > m then x else m) = max m x := by
  rcases lt_or_le m x with h | h
  · rw [if_pos h, max_eq_right h.le]
  · rw [if_neg (not_lt.2 h), max_eq_left h]

lemma ite_lt_min (a b : ℚ) : (if b < a then b else a) = min a b := by
  rcases lt_or_le b a with h | h
  · rw [if_pos h, min_eq_right h.le]
  · rw [if_neg (not_lt.2 h), min_eq_left h]

lemma drawdown_cons (b0 : ℚ) (rest : List ℚ) :
    drawdown_list (b0 :: rest) =
      0 :: List.zipWith (fun x c => (x - c) / c) rest (cummaxAux b0 rest) := by
  simp [drawdown_list, cummax]

lemma zipWith_dd_nonpos (xs : List ℚ) : ∀ m : ℚ, 0 < m →
    ∀ d ∈ List.zipWith (fun x c => (x - c) / c) xs (cummaxAux m xs), d ≤ 0 := by
  induction xs with
  | nil => simp [cummaxAux]
  | cons x xs ih =>
    intro m hm d hd
    rw [cummaxAux, List.zipWith_cons_cons] at hd
    rcases List.mem_cons.1 hd with rfl | hd
    · apply div_nonpos_of_nonpos_of_nonneg
      · exact sub_nonpos.2 (le_max_right m x)
      · exact (lt_max_of_lt_left hm).le
    · exact ih (max m x) (lt_max_of_lt_left hm) d hd

lemma min?_le_of_mem {l : List ℚ} {m : ℚ} (h : l.min? = some m) :
    ∀ x ∈ l, m ≤ x := by
  have anti : Std.Antisymm (α := ℚ) (· ≤ ·) := ⟨fun h1 h2 => le_antisymm h1 h2⟩
  rw [List.min?_eq_some_iff] at h
  · exact h.2
  all_goals simp [le_total, min_le_iff, le_min_iff]

lemma idxminAux_stay (l : List ℚ) (bv : ℚ) (h : ∀ x ∈ l, bv ≤ x) :
    ∀ i bi, idxminAux i bi bv l = bi := by
  induction l with
  | nil => intro i bi; rfl
  | cons x xs ih =>
    intro i bi
    rw [idxminAux, if_neg (not_lt.2 (h x (List.mem_cons_self _ _)))]
    exact ih (fun y hy => h y (List.mem_cons_of_mem _ hy)) _ _

lemma calc_max_dd_loop_eq (xs : List ℚ) : ∀ m mdd : ℚ,
    calc_max_dd_loop m mdd xs =
      List.foldl min mdd (List.zipWith (fun x c => (x - c) / c) xs (cummaxAux m xs)) := by
  induction xs with
  | nil => intro m mdd; rfl
  | cons x xs ih =>
    intro m mdd
    rw [cummaxAux, List.zipWith_cons_cons, List.foldl_cons]
    show calc_max_dd_loop _ _ (x :: xs) = _
    rw [calc_max_dd_loop]
    simp only [ite_gt_max, ite_lt_min]
    exact ih (max m x) (min mdd ((x - max m x) / max m x))

/-- C4: for every non-empty balance series of strictly positive values,
the vectorized drawdown curve `(balance - cummax)/cummax` of
`fin_stats.drawdown` is everywhere `≤ 0` and its first entry is `0`. -/
theorem C4_drawdown_invariant (b : List ℚ) (hne : b ≠ []) (hpos : ∀ x ∈ b, 0 < x) :
    (∀ d ∈ drawdown_list b, d ≤ 0) ∧ (drawdown_list b).head? = some 0 := by
  match b, hne with
  | b0 :: rest, _ =>
    have hb0 : 0 < b0 := hpos b0 (List.mem_cons_self _ _)
    rw [drawdown_cons]
    refine ⟨?_, rfl⟩
    intro d hd
    rcases List.mem_cons.1 hd with rfl | hd
    · exact le_refl 0
    · exact zipWith_dd_nonpos rest b0 hb0 d hd

/-- C4 witness: the invariant holds on the concrete positive series
`[2, 1, 3]`. -/
theorem C4_drawdown_invariant_holds :
    (∀ d ∈ drawdown_list [2, 1, 3], d ≤ 0) ∧
      (drawdown_list [2, 1, 3]).head? = some 0 :=
  C4_drawdown_invariant [2, 1, 3] (by simp) (by norm_num)

/-- C10: the single-pass running-peak loop `calc_max_dd`
(src/stats_funcs.py) and the vectorized cumulative-maximum
implementation `fin_stats.max_dd` (src/src/core.py) agree on every
balance series — in particular on every non-empty strictly positive
one. -/
theorem C10_max_dd_equiv (b : List ℚ) : calc_max_dd b = max_dd b := by
  cases b with
  | nil => rfl
  | cons b0 rest =>
    rw [calc_max_dd, max_dd, drawdown_cons, List.min?]
    rw [calc_max_dd_loop]
    simp only [ite_gt_max, ite_lt_min, max_self, sub_self, zero_div, min_self]
    rw [calc_max_dd_loop_eq]

/-- C1 (scenario A, balance `[100, 90, 80, 95, 110]`, step count 1):
the drawdown curve is `[0, -0.10, -0.20, -0.05, 0]` and the maximum
drawdown is `-0.20`; the trough (first index of minimal drawdown) is
position 2 with balance 80, fallen from the running peak 100; the
recovery point is position 4 with balance 110, the first value at or
after the trough reaching the peak; `fin_stats.recovery`
(src/src/core.py) returns 2 — the elapsed (daily) steps from trough to
recovery — but `calc_recovery` (src/stats_funcs.py) returns 3, because
its `steps_after_trough` counter in fact starts counting right after the
*peak*, contradicting its own variable name and docstring. -/
theorem C1_scenario_recovery :
    drawdown_list [100, 90, 80, 95, 110] = [0, -1/10, -1/5, -1/20, 0] ∧
    max_dd [100, 90, 80, 95, 110] = some (-1/5) ∧
    idxmin (drawdown_list [100, 90, 80, 95, 110]) = 2 ∧
    List.getD [100, 90, 80, 95, 110] 2 (0 : ℚ) = 80 ∧
    List.getD (cummax [100, 90, 80, 95, 110]) 2 0 = 100 ∧
    find_from 100 2 [100, 90, 80, 95, 110] = 4 ∧
    List.getD [100, 90, 80, 95, 110] 4 (0 : ℚ) = 110 ∧
    recovery [100, 90, 80, 95, 110] = some (.recovered 2) ∧
    calc_recovery [100, 90, 80, 95, 110] = some 3 := by
  refine ⟨?_, ?_, ?_, ?_, ?_, ?_, ?_, ?_, ?_⟩
  · norm_num [drawdown_list, cummax, cummaxAux]
  · norm_num [max_dd, drawdown_list, cummax, cummaxAux, List.min?]
  · norm_num [drawdown_list, cummax, cummaxAux, idxmin, idxminAux]
  · norm_num
  · norm_num [cummax, cummaxAux]
  · norm_num [find_from, List.findIdx?]
  · norm_num
  · norm_num [recovery, drawdown_list, cummax, cummaxAux, idxmin, idxminAux,
      idxmax, idxmaxAux, find_from, List.findIdx?]
  · norm_num [calc_recovery, calc_recovery_findmax, calc_recovery_scan]

/-- C2 counterexample: on the non-decreasing series `[100, 110, 120]`
(maximum drawdown exactly 0), `fin_stats.recovery` returns the numeric
value 0 — not an undefined/NaN value — and `calc_recovery` returns
`None`, which is exactly the value it also returns for a series such as
`[100, 50, 60]` that never recovers, so the result is not distinct from
the 'unrecovered' sentinel either. -/
theorem C2_counterexample :
    recovery [100, 110, 120] = some (.recovered 0) ∧
    calc_recovery [100, 110, 120] = none ∧
    calc_recovery [100, 50, 60] = none := by
  refine ⟨?_, ?_, ?_⟩
  · norm_num [recovery, drawdown_list, cummax, cummaxAux, idxmin, idxminAux,
      idxmax, idxmaxAux, find_from, List.findIdx?]
  · norm_num [calc_recovery, calc_recovery_findmax]
  · norm_num [calc_recovery, calc_recovery_findmax, calc_recovery_scan]

lemma calc_recovery_findmax_zero (xs : List ℚ) : ∀ m w : ℚ,
    (∀ d ∈ List.zipWith (fun x c => (x - c) / c) xs (cummaxAux m xs), d = 0) →
    calc_recovery_findmax m 0 w xs = (0, w) := by
  induction xs with
  | nil => intro m w _; rfl
  | cons x xs ih =>
    intro m w h
    have h0 : (x - max m x) / max m x = 0 := by
      apply h
      rw [cummaxAux, List.zipWith_cons_cons]
      exact List.mem_cons_self _ _
    have hcur : (max m x - x) / max m x = 0 := by
      rw [← neg_sub, neg_div, h0, neg_zero]
    rw [calc_recovery_findmax]
    simp only [ite_gt_max, hcur, gt_iff_lt, lt_irrefl, if_false]
    apply ih
    intro d hd
    apply h
    rw [cummaxAux, List.zipWith_cons_cons]
    exact List.mem_cons_of_mem _ hd

/-- C2 as amended: for every non-empty strictly positive balance series
whose maximum drawdown is exactly 0 — in particular every non-decreasing
series — `fin_stats.recovery` (src/src/core.py) returns the numeric
recovery period 0, and `calc_recovery` (src/stats_funcs.py) returns
`None`, the same value it uses as its 'never recovered' sentinel.
Neither implementation returns a dedicated undefined/NaN value. -/
theorem C2_amended (b : List ℚ) (hne : b ≠ []) (hpos : ∀ x ∈ b, 0 < x)
    (h0 : max_dd b = some 0) :
    recovery b = some (.recovered 0) ∧ calc_recovery b = none := by
  match b, hne with
  | b0 :: rest, _ =>
    have hb0 : 0 < b0 := hpos b0 (List.mem_cons_self _ _)
    -- every drawdown is 0
    have hdd : ∀ d ∈ drawdown_list (b0 :: rest), d = 0 := by
      intro d hd
      have h1 : d ≤ 0 := by
        rw [drawdown_cons] at hd
        rcases List.mem_cons.1 hd with rfl | hd
        · exact le_refl 0
        · exact zipWith_dd_nonpos rest b0 hb0 d hd
      have h2 : (0 : ℚ) ≤ d := min?_le_of_mem h0 d hd
      exact le_antisymm h1 h2
    have htail : ∀ d ∈ List.zipWith (fun x c => (x - c) / c) rest (cummaxAux b0 rest),
        d = 0 := by
      intro d hd
      apply hdd
      rw [drawdown_cons]
      exact List.mem_cons_of_mem _ hd
    constructor
    · -- fin_stats.recovery returns the numeric 0
      rw [recovery]
      have ht : idxmin (drawdown_list (b0 :: rest)) = 0 := by
        rw [drawdown_cons, idxmin]
        apply idxminAux_stay
        intro x hx
        exact le_of_eq (htail x hx).symm
      rw [ht]
      have hc : (cummax (b0 :: rest)).take (0 + 1) = [b0] := by
        rw [cummax]
        rfl
      rw [hc]
      have hidx : idxmax [b0] = 0 := rfl
      have hfind : find_from (List.getD (b0 :: rest) (idxmax [b0]) 0) 0 (b0 :: rest) = 0 := by
        rw [hidx]
        show find_from b0 0 (b0 :: rest) = 0
        rw [find_from, List.drop_zero, List.findIdx?_cons]
        simp
      rw [hfind]
      show (if List.getD (b0 :: rest) 0 0 < List.getD (b0 :: rest) (idxmax [b0]) 0
        then some RecoveryResult.notRecovered else some (.recovered (0 - 0))) = _
      rw [hidx]
      simp
    · -- calc_recovery returns None
      rw [calc_recovery]
      have hfm : calc_recovery_findmax b0 0 0 (b0 :: rest) = (0, 0) := by
        rw [calc_recovery_findmax]
        simp only [ite_gt_max, max_self, sub_self, zero_div, gt_iff_lt, lt_irrefl, if_false]
        exact calc_recovery_findmax_zero rest b0 0 htail
      rw [hfm]
      simp

/-- C2 witness: the amended behaviour at the concrete non-decreasing
series `[1, 1, 2]`, whose maximum drawdown is 0. -/
theorem C2_amended_holds :
    recovery [1, 1, 2] = some (.recovered 0) ∧ calc_recovery [1, 1, 2] = none :=
  C2_amended [1, 1, 2] (by simp) (by norm_num)
    (by norm_num [max_dd, drawdown_list, cummax, cummaxAux, List.min?])

/-! ### Positive-return fraction (C7) -/

lemma countP_isSome_eq_length (r : List (Option ℚ)) :
    r.countP (fun o => o.isSome) = (r.filterMap id).length := by
  induction r with
  | nil => rfl
  | cons x xs ih =>
    cases x <;> simp [List.countP_cons, List.filterMap_cons, ih]

lemma countP_nonneg_eq (r : List (Option ℚ)) :
    r.countP oIsNonneg = (r.filterMap id).countP (fun x => decide (0 ≤ x)) := by
  induction r with
  | nil => rfl
  | cons x xs ih =>
    cases x <;> simp [List.countP_cons, List.filterMap_cons, oIsNeg, oIsNonneg, ih]

lemma countP_pos_eq (r : List (Option ℚ)) :
    r.countP oIsPos = (r.filterMap id).countP (fun x => decide (0 < x)) := by
  induction r with
  | nil => rfl
  | cons x xs ih =>
    cases x <;> simp [List.countP_cons, List.filterMap_cons, oIsPos, ih]

/-- C7 counterexample: on the balance `[100, 100]` the single one-step
return is exactly 0.  The engine method `fin_stats.positive_returns_pct`
(src/src/core.py, `>= 0`) yields 1, but the variant
`calc_pos_returns_pct` (src/stats_funcs.py, strict `> 0`, like the
method in src/funcs.py) yields 0 — so the claimed
`count(return >= 0) / count(non-null)` value of 1 is refuted for the
strict variants. -/
theorem C7_counterexample :
    calc_pos_returns_pct [100, 100] = 0 ∧
    positive_returns_pct (pct_change 1 [100, 100]) = 1 ∧
    (0 : ℚ) ≠ 1 := by
  refine ⟨?_, ?_, by norm_num⟩
  · norm_num [calc_pos_returns_pct, pct_change, List.range_succ, List.countP_cons,
      oIsPos]
  · norm_num [positive_returns_pct, pct_change, List.range_succ, List.countP_cons,
      oIsNonneg]

/-- C7 as amended: the engine method `fin_stats.positive_returns_pct`
computes `count(return ≥ 0) / count(non-null return)` — a return of
exactly 0 counts as positive — while the older variants
(`calc_pos_returns_pct` in src/stats_funcs.py and the method in
src/funcs.py) compute `count(return > 0) / count(non-null return)`,
counting a zero return as not positive. -/
theorem C7_amended (r : List (Option ℚ)) (b : List ℚ) :
    positive_returns_pct r =
      ((r.filterMap id).countP (fun x => decide (0 ≤ x)) : ℚ) /
        ((r.filterMap id).length : ℚ) ∧
    calc_pos_returns_pct b =
      (((pct_change 1 b).filterMap id).countP (fun x => decide (0 < x)) : ℚ) /
        (((pct_change 1 b).filterMap id).length : ℚ) := by
  constructor
  · rw [positive_returns_pct, countP_isSome_eq_length, countP_nonneg_eq]
  · rw [calc_pos_returns_pct]
    rw [countP_isSome_eq_length, countP_pos_eq]

/-! ### Losing streak (C8) -/

lemma negRunHead_le_maxNegRun (r : List (Option ℚ)) : negRunHead r ≤ maxNegRun r := by
  cases r with
  | nil => exact le_refl 0
  | cons x xs => exact le_max_left _ _

lemma losing_streak_loop_eq (r : List (Option ℚ)) : ∀ cur best : ℕ, cur ≤ best →
    losing_streak_loop cur best r = max best (max (cur + negRunHead r) (maxNegRun r)) := by
  induction r with
  | nil =>
    intro cur best h
    simp only [losing_streak_loop, negRunHead, maxNegRun, Nat.add_zero, Nat.max_zero]
    omega
  | cons x xs ih =>
    intro cur best h
    rw [losing_streak_loop]
    cases hneg : oIsNeg x with
    | true =>
      rw [if_pos rfl]
      rw [ih (cur + 1) (max best (cur + 1)) (le_max_right _ _)]
      rw [negRunHead, maxNegRun, negRunHead, hneg, if_pos rfl]
      omega
    | false =>
      rw [if_neg (by simp [hneg])]
      rw [ih 0 best (Nat.zero_le best)]
      rw [negRunHead, maxNegRun, negRunHead, hneg]
      simp only [if_false, Bool.false_eq_true]
      have h2 := negRunHead_le_maxNegRun xs
      omega

/-- C8: `fin_stats.losing_streak` / `calc_losing_streak` returns the
length of the longest run of consecutive strictly negative simple
returns — the single pass resets its streak counter on every
non-negative (or NaN) return and tracks the maximum — and on the
simple-return sequence `[0.02, -0.01, -0.03, 0.01, -0.02]` it returns 2
(the run `[-0.01, -0.03]`). -/
theorem C8_losing_streak :
    losing_streak [some (2/100), some (-1/100), some (-3/100), some (1/100),
      some (-2/100)] = 2 ∧
    ∀ r : List (Option ℚ), losing_streak r = maxNegRun r := by
  constructor
  · norm_num [losing_streak, losing_streak_loop, oIsNeg]
  · intro r
    rw [losing_streak, losing_streak_loop_eq r 0 0 (le_refl 0)]
    have h2 := negRunHead_le_maxNegRun r
    omega

/-! ### Frequency mismatch at construction (C3) -/

/-- C3 counterexample: constructing `fin_stats` from a business-daily
balance and a monthly benchmark does raise the mismatch `ValueError`
inside the body — before any return is computed — but `__init__`'s
`try/except` catches and logs it, so the caller observes a normally
returned, attribute-less object (`swallowed`), not a surfaced
`FrequencyMismatch` failure; it is the same observation the caller gets
for an unrelated failure such as an unsupported reporting frequency. -/
theorem C3_counterexample :
    fin_stats_body ⟨[1, 2], some "B"⟩ ⟨[1, 2], some "M"⟩ "M" 0 =
      .error "Balance and Benchmark balance have a different balance frequency" ∧
    fin_stats_init ⟨[1, 2], some "B"⟩ ⟨[1, 2], some "M"⟩ "M" 0 = .swallowed ∧
    (∀ E, fin_stats_init ⟨[1, 2], some "B"⟩ ⟨[1, 2], some "M"⟩ "M" 0 ≠ .engine E) ∧
    fin_stats_init ⟨[1, 2], some "M"⟩ ⟨[1, 2], some "M"⟩ "6M" 0 = .swallowed := by
  refine ⟨rfl, rfl, ?_, rfl⟩
  intro E h
  exact InitOutcome.noConfusion h

/-- C3 as amended: for every series/benchmark pair with differing native
frequency tags, the mismatch `ValueError` raised by `check_bal_freq`
aborts the `__init__` body before the return-bearing engine state is
ever built (for any requested frequency and risk-free rate), but the
surrounding `try/except` swallows it, so construction returns the
attribute-less `swallowed` object to the caller instead of surfacing a
`FrequencyMismatch` error. -/
theorem C3_amended (A B : BalSeries) (fa fb : String) (freq : String) (rf : ℝ)
    (ha : A.freqTag = some fa) (hb : B.freqTag = some fb) (hne : fb ≠ fa) :
    fin_stats_body A B freq rf =
      .error "Balance and Benchmark balance have a different balance frequency" ∧
    fin_stats_init A B freq rf = .swallowed := by
  have hbody : fin_stats_body A B freq rf =
      .error "Balance and Benchmark balance have a different balance frequency" := by
    simp [fin_stats_body, get_stats_freq, check_bal_freq, get_data_frequency,
      ha, hb, hne, bind, Except.bind]
  refine ⟨hbody, ?_⟩
  rw [fin_stats_init, hbody]

/-- C3 witness: the amended behaviour at a concrete mismatched pair
(business-daily vs weekly, monthly reporting, risk-free rate 0.022). -/
theorem C3_amended_holds :
    fin_stats_body ⟨[1, 2, 3], some "B"⟩ ⟨[4, 5, 6], some "W"⟩ "M" (22/1000) =
      .error "Balance and Benchmark balance have a different balance frequency" ∧
    fin_stats_init ⟨[1, 2, 3], some "B"⟩ ⟨[4, 5, 6], some "W"⟩ "M" (22/1000) =
      .swallowed :=
  C3_amended ⟨[1, 2, 3], some "B"⟩ ⟨[4, 5, 6], some "W"⟩ "B" "W" "M" (22/1000)
    rfl rfl (by simp)

/-! ### Geometric mean of a constant-growth balance (C5) -/

lemma filterMap_id_map_opt (g : ℚ → ℝ) (l : List (Option ℚ)) :
    (l.map (Option.map g)).filterMap id = (l.filterMap id).map g := by
  induction l with
  | nil => rfl
  | cons x xs ih => cases x <;> simp [List.filterMap_cons, ih]

lemma oVals_oLog1p (l : List (Option ℚ)) :
    oVals (oLog1p l) = (l.filterMap id).map (fun x : ℚ => Real.log (1 + (x : ℝ))) := by
  rw [oVals, oLog1p, filterMap_id_map_opt]

lemma filterMap_congr_mem (l : List ℕ) (F G : ℕ → Option ℚ)
    (h : ∀ i ∈ l, F i = G i) : l.filterMap F = l.filterMap G := by
  induction l with
  | nil => rfl
  | cons x xs ih =>
    rw [List.filterMap_cons, List.filterMap_cons,
      h x (List.mem_cons_self _ _), ih (fun i hi => h i (List.mem_cons_of_mem _ hi))]

lemma range_filterMap_ite (c : ℚ) (k : ℕ) : ∀ n : ℕ,
    (List.range n).filterMap (fun i => if k ≤ i then some c else none) =
      List.replicate (n - k) c := by
  intro n
  induction n with
  | zero => rw [Nat.zero_sub]; rfl
  | succ n ih =>
    rw [List.range_succ, List.filterMap_append, ih, List.filterMap_cons]
    rcases le_or_lt k n with h | h
    · rw [if_pos h]
      have : n + 1 - k = (n - k) + 1 := by omega
      rw [this, List.replicate_succ']
      rfl
    · rw [if_neg (not_le.2 h)]
      have h1 : n + 1 - k = 0 := by omega
      have h2 : n - k = 0 := by omega
      rw [h1, h2]
      rfl

lemma geomBalance_getD (b0 r : ℚ) (n i : ℕ) (hi : i < n) :
    (geomBalance b0 r n).getD i 0 = b0 * (1 + r) ^ i := by
  rw [geomBalance, List.getD_eq_getElem?_getD, List.getElem?_map,
    List.getElem?_range hi]
  rfl

lemma geomBalance_returns (b0 r : ℚ) (k n : ℕ) (hb0 : b0 ≠ 0) (hr : (1 : ℚ) + r ≠ 0) :
    (pct_change k (geomBalance b0 r n)).filterMap id =
      List.replicate (n - k) ((1 + r) ^ k - 1) := by
  rw [pct_change]
  have hlen : (geomBalance b0 r n).length = n := by
    rw [geomBalance, List.length_map, List.length_range]
  rw [hlen, List.filterMap_map]
  have hcongr : ∀ i ∈ List.range n,
      (id ∘ fun i => if k ≤ i then
        some ((geomBalance b0 r n).getD i 0 / (geomBalance b0 r n).getD (i - k) 0 - 1)
        else none) i =
      (fun i => if k ≤ i then some ((1 + r) ^ k - 1) else none) i := by
    intro i hi
    have hin : i < n := List.mem_range.1 hi
    rcases le_or_lt k i with h | h
    · have hik : i - k < n := by omega
      simp only [Function.comp_apply, id_eq, if_pos h]
      rw [geomBalance_getD b0 r n i hin, geomBalance_getD b0 r n (i - k) hik]
      congr 1
      have hsplit : (1 + r) ^ i = (1 + r) ^ (i - k) * (1 + r) ^ k := by
        rw [← pow_add]
        congr 1
        omega
      rw [hsplit]
      rw [show b0 * ((1 + r) ^ (i - k) * (1 + r) ^ k) =
        (1 + r) ^ k * (b0 * (1 + r) ^ (i - k)) by ring]
      rw [mul_div_assoc, div_self (mul_ne_zero hb0 (pow_ne_zero _ hr)), mul_one]
    · simp only [Function.comp_apply, id_eq, if_neg (not_le.2 h)]
  rw [filterMap_congr_mem _ _ _ hcongr, range_filterMap_ite]

/-- C5 counterexample: the balance `geomBalance 1 1 3 = [1, 2, 4]` has
constant per-period growth rate `r = 1`, yet with step count `k = 2` the
engine's geometric mean return `exp(mean(log returns)) - 1` is
`(1 + 1)^2 - 1 = 3`, not `r = 1`. -/
theorem C5_counterexample :
    fin_stats.mean_returns ⟨0, 2, geomBalance 1 1 3, []⟩ true = 3 ∧ (3 : ℝ) ≠ 1 := by
  refine ⟨?_, by norm_num⟩
  have hret : (fin_stats.returns ⟨0, 2, geomBalance 1 1 3, []⟩).filterMap id = [3] := by
    rw [fin_stats.returns]
    show (pct_change 2 (geomBalance 1 1 3)).filterMap id = [3]
    rw [geomBalance_returns 1 1 2 3 (by norm_num) (by norm_num)]
    norm_num
  rw [fin_stats.mean_returns, if_pos rfl, fin_stats.log_returns, omean, oVals_oLog1p,
    hret]
  simp only [List.map_cons, List.map_nil, List.sum_cons, List.sum_nil, List.length_cons,
    List.length_nil]
  rw [add_zero, Nat.cast_one, div_one]
  rw [show ((1 : ℝ) + ((3 : ℚ) : ℝ)) = 4 by norm_num]
  rw [Real.exp_log (by norm_num)]
  norm_num

/-- C5 as amended: for a balance series of constant per-native-period
growth rate `r` (`balance[i] = b0 * (1+r)^i`, `b0 > 0`, `1 + r > 0`) and
step count `k` with `0 < k < n`, the engine's geometric mean return is
the `k`-period compounded rate `(1+r)^k - 1` — it equals `r` itself only
for `k = 1` (or `r = 0`), not for every step count. -/
theorem C5_amended (b0 r : ℚ) (k n : ℕ) (rf : ℝ) (hb0 : 0 < b0)
    (hr : 0 < (1 : ℚ) + r) (_hk : 0 < k) (hkn : k < n) :
    fin_stats.mean_returns ⟨rf, k, geomBalance b0 r n, []⟩ true =
      (((1 + r : ℚ) : ℝ)) ^ k - 1 := by
  have hret : (fin_stats.returns ⟨rf, k, geomBalance b0 r n, []⟩).filterMap id =
      List.replicate (n - k) ((1 + r) ^ k - 1) := by
    rw [fin_stats.returns]
    exact geomBalance_returns b0 r k n (ne_of_gt hb0) (ne_of_gt hr)
  rw [fin_stats.mean_returns, if_pos rfl, fin_stats.log_returns, omean, oVals_oLog1p,
    hret, List.map_replicate, List.sum_replicate, List.length_replicate]
  have hnk : (0 : ℝ) < ((n - k : ℕ) : ℝ) := by
    have : 0 < n - k := by omega
    exact_mod_cast this
  rw [nsmul_eq_mul, mul_div_cancel_left₀ _ (ne_of_gt hnk)]
  have hpow : ((1 : ℝ) + (((1 + r : ℚ) ^ k - 1 : ℚ) : ℝ)) = (((1 + r : ℚ) : ℝ)) ^ k := by
    push_cast
    ring
  rw [hpow, Real.exp_log (by positivity)]

/-- C5 witness: the amended statement at `b0 = 1`, `r = 1`, `k = 2`,
`n = 3`: the geometric mean return is `(1 + 1)^2 - 1 = 3`. -/
theorem C5_amended_holds :
    fin_stats.mean_returns ⟨0, 2, geomBalance 1 1 3, []⟩ true =
      (((1 + 1 : ℚ) : ℝ)) ^ 2 - 1 :=
  C5_amended 1 1 2 3 0 (by norm_num) (by norm_num) (by norm_num) (by norm_num)

/-! ### Calmar ratio (C6) -/

/-- C6 counterexample: for the balance `[1, 1/2]` with risk-free rate 0,
the single return is `-1/2`, so the geometric mean return is `-1/2` and
the minimum return is `-1/2 < 0`.  The claimed value
`(mean - rf) / |min return|` is `-1`, but `fin_stats.calmar_ratio`
returns `abs` of the whole quotient, i.e. `1`. -/
theorem C6_counterexample :
    fin_stats.min_return ⟨0, 1, [1, 1/2], []⟩ = some (-(1/2)) ∧
    fin_stats.mean_returns ⟨0, 1, [1, 1/2], []⟩ true = -(1/2) ∧
    calmar_ratio_fn ⟨0, 1, [1, 1/2], []⟩ true = some 1 ∧
    ((-(1/2) : ℝ) - 0) / |((-(1/2) : ℚ) : ℝ)| = -1 ∧
    (1 : ℝ) ≠ -1 := by
  have hret : fin_stats.returns ⟨0, 1, [1, 1/2], []⟩ = [none, some (-(1/2))] := by
    norm_num [fin_stats.returns, pct_change, List.range_succ]
  have hmin : fin_stats.min_return ⟨0, 1, [1, 1/2], []⟩ = some (-(1/2)) := by
    rw [fin_stats.min_return, hret]
    norm_num [List.min?, List.filterMap_cons, List.filterMap_nil, List.foldl]
  have hmean : fin_stats.mean_returns ⟨0, 1, [1, 1/2], []⟩ true = -(1/2) := by
    rw [fin_stats.mean_returns, if_pos rfl, fin_stats.log_returns, omean, oVals_oLog1p,
      hret]
    simp only [List.filterMap_cons, List.filterMap_nil, id_eq, List.map_cons,
      List.map_nil, List.sum_cons, List.sum_nil, List.length_cons, List.length_nil,
      add_zero, zero_add, Nat.cast_one, div_one]
    rw [show (1 : ℝ) + ((-(1/2) : ℚ) : ℝ) = 1/2 by norm_num]
    rw [Real.exp_log (by norm_num)]
    norm_num
  refine ⟨hmin, hmean, ?_, ?_, by norm_num⟩
  · simp only [calmar_ratio_fn, hmin]
    rw [if_pos (by norm_num : (-(1/2) : ℚ) < 0), hmean]
    norm_num
  · push_cast
    rw [abs_of_neg (by norm_num : (-(1/2) : ℝ) < 0)]
    norm_num

/-- C6 as amended: whenever `min_return = some m`, the engine's
`calmar_ratio` returns `|mean - rf| / |m|` — the absolute value of the
whole quotient, not the signed `(mean - rf) / |m|` — when `m < 0`, and
returns NaN (`none`), not an infinity, when `m ≥ 0`.  (The inline Calmar
of `sbs.get_stats`, src/__init__.py line 90, computes the signed
`(mean - rf)/|m|` claimed, but with no zero-loss guard at all.) -/
theorem C6_amended (E : fin_stats) (g : Bool) (m : ℚ)
    (hm : fin_stats.min_return E = some m) :
    (m < 0 → calmar_ratio_fn E g =
      some (|fin_stats.mean_returns E g - E.rf| / |(m : ℝ)|)) ∧
    (0 ≤ m → calmar_ratio_fn E g = none) := by
  constructor
  · intro hneg
    simp only [calmar_ratio_fn, hm]
    rw [if_pos hneg, abs_div]
  · intro hpos
    simp only [calmar_ratio_fn, hm]
    rw [if_neg (not_lt.2 hpos)]

/-- C6 witness: the amended formula at the engine over balance
`[1, 2, 1]` with risk-free rate 0, whose minimum return is `-1/2 < 0`. -/
theorem C6_amended_holds :
    calmar_ratio_fn ⟨0, 1, [1, 2, 1], []⟩ true =
      some (|fin_stats.mean_returns ⟨0, 1, [1, 2, 1], []⟩ true -
        (fin_stats.mk 0 1 [1, 2, 1] []).rf| / |((-(1/2) : ℚ) : ℝ)|) :=
  (C6_amended ⟨0, 1, [1, 2, 1], []⟩ true (-(1/2))
    (by norm_num [fin_stats.min_return, fin_stats.returns, pct_change,
      List.range_succ, List.min?, min_def, List.filterMap_cons, List.filterMap_nil,
      List.foldl])).1 (by norm_num)

/-! ### Information ratio (C9) -/

/-- C9: in both modes of `fin_stats.info_ratio` the result is NaN
(`none`) — never an infinity — whenever the standard deviation of the
per-period return differences is 0, and otherwise it is the mean of the
differences divided by that standard deviation (in the default log mode,
mean and std of the log-return differences are each transformed through
`exp(·) - 1` before dividing). -/
theorem C9_info_nan (E : fin_stats) :
    (ostd (oCastR (fin_stats.ret_diffs E)) = 0 → info_ratio_fn E false = none) ∧
    (ostd (fin_stats.log_ret_diffs E) = 0 → info_ratio_fn E true = none) ∧
    (0 < ostd (oCastR (fin_stats.ret_diffs E)) →
      info_ratio_fn E false =
        some (omean (oCastR (fin_stats.ret_diffs E)) /
          ostd (oCastR (fin_stats.ret_diffs E)))) ∧
    (0 < Real.exp (ostd (fin_stats.log_ret_diffs E)) - 1 →
      info_ratio_fn E true =
        some ((Real.exp (omean (fin_stats.log_ret_diffs E)) - 1) /
          (Real.exp (ostd (fin_stats.log_ret_diffs E)) - 1))) := by
  refine ⟨?_, ?_, ?_, ?_⟩
  · intro h
    simp only [info_ratio_fn, Bool.false_eq_true, if_false]
    rw [if_neg (by rw [h]; exact lt_irrefl 0)]
  · intro h
    simp only [info_ratio_fn, if_true]
    rw [if_neg (by rw [h, Real.exp_zero]; norm_num)]
  · intro h
    simp only [info_ratio_fn, Bool.false_eq_true, if_false]
    rw [if_pos h]
  · intro h
    simp only [info_ratio_fn, if_true]
    rw [if_pos h]

/-- C9 witness: a series/benchmark pair with identical balances has
constant (zero) return differences, hence std 0, and `info_ratio`
returns `none` (NaN). -/
theorem C9_info_nan_holds :
    info_ratio_fn ⟨0, 1, [1, 2, 4], [1, 2, 4]⟩ false = none :=
  (C9_info_nan ⟨0, 1, [1, 2, 4], [1, 2, 4]⟩).1 (by
    have hd : fin_stats.ret_diffs ⟨0, 1, [1, 2, 4], [1, 2, 4]⟩ =
        [none, some 0, some 0] := by
      norm_num [fin_stats.ret_diffs, fin_stats.returns, fin_stats.bm_returns,
        pct_change, List.range_succ, osubQ]
    rw [hd]
    norm_num [ostd, ovar, omean, oVals, oCastR, List.filterMap_cons, List.filterMap_nil,
      Real.sqrt_zero])
